import Mathlib

/-!
# DictionaryGetterSetter (src/dictionary/methods/accessors.hpp)

A shallow embedding of the property accessor of realm-js dictionaries:
`DictionaryGetterSetter<T>::set` and `DictionaryGetterSetter<T>::get`.

The C++ code is stateful and signals failure with exceptions.  Here

* the collection behind the `IOCollection*` is a state `σ` that is passed
  explicitly, together with the log written by `utility::Logs::info` and a
  record of the calls made through the collection pointer (`World`);
* a C++ exception is a value of `Exn`, a call that may throw returns an
  `Except Exn _`, and a `try { ... } catch (E&)` block is a `match` on the
  result of the block that tests the dynamic type of the exception;
* the template parameter `T` becomes the type parameters `Ctx` (the host
  context, `args.context`) and `HV` (the host value, `T::Value`); `SV` is the
  stored value (`realm::Mixed`).
-/

namespace realm
namespace js

/-! ## Exceptions -/

/-- Dynamic type of a C++ exception that can cross the accessor.  The two
types named by the `catch` clauses of the accessor are `KeyNotFound`
(`realm::KeyNotFound`) and `InvalidTransaction`
(`InvalidTransactionException`); an exception of a class derived from one of
them has that kind, as a `catch` by reference sees it.  `UnsupportedValueType`
is what the value bridge raises on a host value it cannot translate; `Other`
is any other exception type, given by its name. -/
inductive ExnKind where
  | KeyNotFound
  | InvalidTransaction
  | UnsupportedValueType
  | Other (name : String)
  deriving DecidableEq

/-- A thrown C++ exception: its dynamic type and the text of `what()`. -/
structure Exn where
  kind : ExnKind
  what : String
  deriving DecidableEq

/-! ## Strings -/

/-- The characters of the C string that `std::string::c_str()` points to, as
every consumer of a `const char*` reads it: the characters before the first
NUL. -/
def c_str (s : String) : String :=
  String.mk (s.data.takeWhile (fun ch => ch != Char.ofNat 0))

/-! ## Collaborators of the accessor -/

/-- The abstract collection `IOCollection` (a class of virtual methods, hence
a record of functions) over a collection state `σ`.  `get` reads and may
throw; `set` may throw and yields the state after the call in both cases. -/
structure IOCollection (σ SV : Type) where
  get : σ → String → Except Exn SV
  set : σ → String → SV → Except Exn Unit × σ

/-- The value bridge `TypeMixed<T>` after the constructor of the accessor has
registered the object-link strategy: `wrap` turns a stored value into a host
value, `unwrap` a host value into a stored value; both may throw. -/
structure TypeMixed (Ctx HV SV : Type) where
  wrap : Ctx → SV → Except Exn HV
  unwrap : Ctx → HV → Except Exn SV

/-- The part of `js::Value<T>` the accessor uses. -/
structure Value (Ctx HV : Type) where
  from_undefined : Ctx → HV

/-- A call made through the collection pointer. -/
inductive Call (SV : Type) where
  | get (key : String)
  | set (key : String) (value : SV)
  deriving DecidableEq

/-- What the accessor acts on: the state of the collection, the calls made
through the collection pointer so far (oldest first) and the lines written by
`utility::Logs::info` (oldest first, tag and text). -/
structure World (σ SV : Type) where
  store : σ
  calls : List (Call SV)
  logs : List (String × String)

/-- A world in which nothing has been called or logged yet. -/
def World.init {σ SV : Type} (s : σ) : World σ SV :=
  { store := s, calls := [], logs := [] }

namespace utility
namespace Logs

/-- The model of `utility::Logs::info(tag, text)`: appends one line. -/
def info {σ SV : Type} (tag text : String) (w : World σ SV) : World σ SV :=
  { w with logs := w.logs ++ [(tag, text)] }

end Logs
end utility

/-- The model of `collection->get(key)`: the call is recorded, the state is
read. -/
def IOCollection.call_get {σ SV : Type} (c : IOCollection σ SV) (key : String)
    (w : World σ SV) : Except Exn SV × World σ SV :=
  (c.get w.store key, { w with calls := w.calls ++ [Call.get key] })

/-- The model of `collection->set(key, value)`: the call is recorded, the
state becomes the one the collection yields. -/
def IOCollection.call_set {σ SV : Type} (c : IOCollection σ SV) (key : String)
    (value : SV) (w : World σ SV) : Except Exn Unit × World σ SV :=
  ((c.set w.store key value).1,
    { w with store := (c.set w.store key value).2,
             calls := w.calls ++ [Call.set key value] })

/-! ## The request -/

/-- Modelled from the spec: the error value a failed write hands to the host,
`TransactionError(message, key)`; the host's error type is not among the
sources. -/
structure TransactionError where
  message : String
  key : String
  deriving DecidableEq

namespace accessor

/-- The request `accessor::Arguments`: the fields the accessor reads. -/
structure Arguments (Ctx HV : Type) where
  context : Ctx
  property_name : String
  value : HV

/-- Modelled from the spec: `accessor::Arguments::throw_error`, declared in
`common/object/interfaces.hpp`, which is not among the sources.  The spec gives
the error a failed write hands to the host as `TransactionError(message, key)`:
the message is the argument of the call, the key is the property name of the
request the method belongs to. -/
def Arguments.throw_error {Ctx HV : Type} (args : Arguments Ctx HV)
    (message : String) : TransactionError :=
  { message := message, key := args.property_name }

end accessor

/-- How a call of the accessor ends: it returns a value, it has signalled an
error to the host with `args.throw_error`, or a C++ exception leaves it. -/
inductive Completion (α : Type) where
  | returned (value : α)
  | host_error (error : TransactionError)
  | escaped (e : Exn)
  deriving DecidableEq

/-! ## The accessor -/

/-- The model of `DictionaryGetterSetter<T>`: its two data members and the
host value API of `T`. -/
structure DictionaryGetterSetter (σ Ctx HV SV : Type) where
  collection : IOCollection σ SV
  mixed : TypeMixed Ctx HV SV
  Value : Value Ctx HV

namespace DictionaryGetterSetter

variable {σ Ctx HV SV : Type}

/-- The `try` block of `set` (lines 46-47): unwrap the host value, then write
it under `key`.  An exception of the first call skips the second. -/
def set_try (self : DictionaryGetterSetter σ Ctx HV SV) (context : Ctx)
    (key : String) (value : HV) (w : World σ SV) : Except Exn Unit × World σ SV :=
  match self.mixed.unwrap context value with
  | Except.error e => (Except.error e, w)
  | Except.ok mixed_value => self.collection.call_set key mixed_value w

/-- The model of `DictionaryGetterSetter::set` (lines 41-52). -/
def set (self : DictionaryGetterSetter σ Ctx HV SV)
    (args : accessor.Arguments Ctx HV) (w : World σ SV) :
    Completion Unit × World σ SV :=
  let context := args.context
  let key := c_str args.property_name
  let w := utility.Logs.info "DictionaryGetterSetter" ("Set: " ++ args.property_name) w
  match self.set_try context key args.value w with
  | (Except.ok (), w) => (Completion.returned (), w)
  | (Except.error error, w) =>
    if error.kind = ExnKind.InvalidTransaction then
      let w := utility.Logs.info "DictionaryGetterSetter"
        ("Set Error-> InvalidTransaction \n For property: " ++ args.property_name) w
      (Completion.host_error (args.throw_error error.what), w)
    else
      (Completion.escaped error, w)

/-- The `try` block of `get` (lines 59-61): look `key` up, then wrap the
stored value.  An exception of the first call skips the second. -/
def get_try (self : DictionaryGetterSetter σ Ctx HV SV) (context : Ctx)
    (key : String) (w : World σ SV) : Except Exn HV × World σ SV :=
  match self.collection.call_get key w with
  | (Except.error e, w) => (Except.error e, w)
  | (Except.ok mixed_value, w) =>
    match self.mixed.wrap context mixed_value with
    | Except.error e => (Except.error e, w)
    | Except.ok js_value => (Except.ok js_value, w)

/-- The model of `DictionaryGetterSetter::get` (lines 54-67). -/
def get (self : DictionaryGetterSetter σ Ctx HV SV)
    (args : accessor.Arguments Ctx HV) (w : World σ SV) :
    Completion HV × World σ SV :=
  let context := args.context
  let key := c_str args.property_name
  let w := utility.Logs.info "DictionaryGetterSetter" ("Get: " ++ args.property_name) w
  match self.get_try context key w with
  | (Except.ok js_value, w) => (Completion.returned js_value, w)
  | (Except.error error, w) =>
    if error.kind = ExnKind.KeyNotFound then
      let w := utility.Logs.info "DictionaryGetterSetter"
        ("Get Error-> KeyNotFound \n For property: " ++ args.property_name) w
      (Completion.returned (self.Value.from_undefined context), w)
    else
      (Completion.escaped error, w)

end DictionaryGetterSetter

/-! ## The keyed collection of the spec -/

/-- Modelled from the spec: the state of the keyed collection, whose code
(`realm/dictionary.hpp`, `dictionary/collection/collection.hpp`) is not among
the sources.  It holds the entries, one stored value per key, and whether a
writable transaction is active. -/
structure Dictionary (SV : Type) where
  entries : List (String × SV)
  writable : Bool

/-- The dictionary with no entry. -/
def Dictionary.empty (SV : Type) (writable : Bool) : Dictionary SV :=
  { entries := [], writable := writable }

/-- Modelled from the spec: `KeyedCollectionHandle`, the collection the
accessor is given, whose code is not among the sources.  `get(key)` yields the
stored value and fails with KeyNotFound if the key is absent; `set(key, value)`
fails with InvalidTransaction if no writable transaction is active, leaving
the state as it was, and otherwise makes `value` the stored value of `key`.
`what` gives the message the backend attaches to each kind of failure. -/
def KeyedCollectionHandle {SV : Type} (what : ExnKind → String) :
    IOCollection (Dictionary SV) SV where
  get := fun d key =>
    match d.entries.lookup key with
    | some value => Except.ok value
    | none => Except.error { kind := ExnKind.KeyNotFound, what := what ExnKind.KeyNotFound }
  set := fun d key value =>
    if d.writable then
      (Except.ok (),
        { d with entries := (key, value) :: d.entries.filter (fun entry => entry.1 != key) })
    else
      (Except.error
        { kind := ExnKind.InvalidTransaction, what := what ExnKind.InvalidTransaction }, d)

/-! ## A small host, for concrete runs -/

/-- Host values of the sample host: the undefined value, strings, numbers
and symbols (which no stored value represents). -/
inductive SampleValue where
  | undefined
  | string (text : String)
  | number (n : Int)
  | symbol (description : String)
  deriving DecidableEq

/-- Stored values of the sample host: strings, integers and links to an
object of the store, given by its key. -/
inductive SampleMixed where
  | string (text : String)
  | int (n : Int)
  | link (target : Nat)
  deriving DecidableEq

/-- The bridge of the sample host.  Strings and numbers convert
structurally.  Wrapping a link looks its target up among the live objects
`live` and fails with KeyNotFound when the target has been deleted; a live
target is shown as a symbol.  Unwrapping the undefined value or a symbol fails
with UnsupportedValueType. -/
def sampleMixed (live : List Nat) : TypeMixed Unit SampleValue SampleMixed where
  wrap := fun _ stored =>
    match stored with
    | SampleMixed.string text => Except.ok (SampleValue.string text)
    | SampleMixed.int n => Except.ok (SampleValue.number n)
    | SampleMixed.link target =>
      if target ∈ live then Except.ok (SampleValue.symbol "object")
      else Except.error { kind := ExnKind.KeyNotFound, what := "No such object" }
  unwrap := fun _ value =>
    match value with
    | SampleValue.string text => Except.ok (SampleMixed.string text)
    | SampleValue.number n => Except.ok (SampleMixed.int n)
    | _ => Except.error { kind := ExnKind.UnsupportedValueType, what := "Unsupported value" }

/-- The host value API of the sample host. -/
def sampleValue : Value Unit SampleValue where
  from_undefined := fun _ => SampleValue.undefined

/-- The messages of the sample backend. -/
def sampleWhat : ExnKind → String
  | ExnKind.KeyNotFound => "Key not found"
  | ExnKind.InvalidTransaction => "Cannot modify managed objects outside of a write transaction."
  | _ => "Error"

/-- The accessor of the sample host over the keyed collection of the spec. -/
def sampleAccessor (live : List Nat) :
    DictionaryGetterSetter (Dictionary SampleMixed) Unit SampleValue SampleMixed :=
  { collection := KeyedCollectionHandle sampleWhat
    mixed := sampleMixed live
    Value := sampleValue }

/-- A collection whose every call fails with the exception `e`. -/
def failingCollection (e : Exn) : IOCollection Unit SampleMixed where
  get := fun _ _ => Except.error e
  set := fun _ _ _ => (Except.error e, ())

/-- The accessor of the sample host over a collection that always fails. -/
def failingAccessor (e : Exn) : DictionaryGetterSetter Unit Unit SampleValue SampleMixed :=
  { collection := failingCollection e
    mixed := sampleMixed []
    Value := sampleValue }

/-- The accessor of the sample host over a collection whose reads fail with
`e` and whose writes succeed. -/
def readFailingAccessor (e : Exn) :
    DictionaryGetterSetter Unit Unit SampleValue SampleMixed :=
  { collection :=
      { get := fun _ _ => Except.error e
        set := fun _ _ _ => (Except.ok (), ()) }
    mixed := sampleMixed []
    Value := sampleValue }

/-- The accessor of the sample host over a collection whose writes fail with
`e` and whose reads succeed, yielding the stored value `stored`. -/
def writeFailingAccessor (e : Exn) (stored : SampleMixed) :
    DictionaryGetterSetter Unit Unit SampleValue SampleMixed :=
  { collection :=
      { get := fun _ _ => Except.ok stored
        set := fun _ _ _ => (Except.error e, ()) }
    mixed := sampleMixed []
    Value := sampleValue }

/-- A backend failure that neither `catch` clause names. -/
def sampleFailure : Exn :=
  { kind := ExnKind.Other "std::runtime_error", what := "disk failure" }

/-- The request of the sample host for `name` and `value`. -/
def sampleArgs (name : String) (value : SampleValue) : accessor.Arguments Unit SampleValue :=
  { context := (), property_name := name, value := value }

/-! ## Lemmas shared by the theorems below -/

/-- The C string of a string without a NUL is the string itself. -/
theorem c_str_of_no_nul (s : String) (hnul : ∀ ch ∈ s.data, ch ≠ Char.ofNat 0) :
    c_str s = s := by
  have hall : s.data.takeWhile (fun ch => ch != Char.ofNat 0) = s.data := by
    rw [List.takeWhile_eq_self_iff]
    intro ch hch
    simpa using hnul ch hch
  simp [c_str, hall]

namespace DictionaryGetterSetter

variable {σ Ctx HV SV : Type}

/-- The call `get` makes when the lookup throws `e`, by the two cases of the
`catch` clause. -/
theorem get_of_lookup_error (self : DictionaryGetterSetter σ Ctx HV SV)
    (args : accessor.Arguments Ctx HV) (w : World σ SV) (e : Exn)
    (hget : self.collection.get w.store (c_str args.property_name) = Except.error e) :
    (self.get args w).1 =
      if e.kind = ExnKind.KeyNotFound then
        Completion.returned (self.Value.from_undefined args.context)
      else Completion.escaped e := by
  simp only [get, get_try, IOCollection.call_get, utility.Logs.info, hget]
  split <;> rfl

/-- The call `get` makes when the lookup yields `stored`: what `wrap` yields
decides. -/
theorem get_of_lookup_ok (self : DictionaryGetterSetter σ Ctx HV SV)
    (args : accessor.Arguments Ctx HV) (w : World σ SV) (stored : SV)
    (hget : self.collection.get w.store (c_str args.property_name) = Except.ok stored) :
    (self.get args w).1 =
      match self.mixed.wrap args.context stored with
      | Except.ok js_value => Completion.returned js_value
      | Except.error e =>
        if e.kind = ExnKind.KeyNotFound then
          Completion.returned (self.Value.from_undefined args.context)
        else Completion.escaped e := by
  simp only [get, get_try, IOCollection.call_get, utility.Logs.info, hget]
  cases hwrap : self.mixed.wrap args.context stored with
  | ok js_value => rfl
  | error e => simp only []; split <;> rfl

/-- The collection state after `get` is the one before: `get` only reads. -/
theorem get_store (self : DictionaryGetterSetter σ Ctx HV SV)
    (args : accessor.Arguments Ctx HV) (w : World σ SV) :
    (self.get args w).2.store = w.store := by
  simp only [get, get_try, IOCollection.call_get, utility.Logs.info]
  cases self.collection.get w.store (c_str args.property_name) with
  | error e => simp only []; split <;> rfl
  | ok stored =>
    simp only []
    cases self.mixed.wrap args.context stored with
    | ok js_value => rfl
    | error e => simp only []; split <;> rfl

/-- The calls `get` makes through the collection pointer: one lookup, of the
C string of the property name. -/
theorem get_calls (self : DictionaryGetterSetter σ Ctx HV SV)
    (args : accessor.Arguments Ctx HV) (w : World σ SV) :
    (self.get args w).2.calls = w.calls ++ [Call.get (c_str args.property_name)] := by
  simp only [get, get_try, IOCollection.call_get, utility.Logs.info]
  cases self.collection.get w.store (c_str args.property_name) with
  | error e => simp only []; split <;> rfl
  | ok stored =>
    simp only []
    cases self.mixed.wrap args.context stored with
    | ok js_value => rfl
    | error e => simp only []; split <;> rfl

/-- The call `set` makes when `unwrap` throws `e`: no call reaches the
collection, and the `catch` clause decides how the call ends. -/
theorem set_of_unwrap_error (self : DictionaryGetterSetter σ Ctx HV SV)
    (args : accessor.Arguments Ctx HV) (w : World σ SV) (e : Exn)
    (hun : self.mixed.unwrap args.context args.value = Except.error e) :
    (self.set args w).1 =
        (if e.kind = ExnKind.InvalidTransaction then
          Completion.host_error (args.throw_error e.what)
        else Completion.escaped e) ∧
      (self.set args w).2.calls = w.calls ∧ (self.set args w).2.store = w.store := by
  simp only [set, set_try, utility.Logs.info, hun]
  split <;> exact ⟨rfl, rfl, rfl⟩

/-- The call `set` makes when `unwrap` yields `stored`: one write of `stored`
under the C string of the property name, whose outcome decides how the call
ends. -/
theorem set_of_unwrap_ok (self : DictionaryGetterSetter σ Ctx HV SV)
    (args : accessor.Arguments Ctx HV) (w : World σ SV) (stored : SV)
    (hun : self.mixed.unwrap args.context args.value = Except.ok stored) :
    (self.set args w).1 =
        (match (self.collection.set w.store (c_str args.property_name) stored).1 with
        | Except.ok () => Completion.returned ()
        | Except.error e =>
          if e.kind = ExnKind.InvalidTransaction then
            Completion.host_error (args.throw_error e.what)
          else Completion.escaped e) ∧
      (self.set args w).2.calls = w.calls ++ [Call.set (c_str args.property_name) stored] ∧
      (self.set args w).2.store =
        (self.collection.set w.store (c_str args.property_name) stored).2 := by
  simp only [set, set_try, IOCollection.call_set, utility.Logs.info, hun]
  cases (self.collection.set w.store (c_str args.property_name) stored).1 with
  | ok u => exact ⟨rfl, rfl, rfl⟩
  | error e => simp only []; split <;> exact ⟨rfl, rfl, rfl⟩

end DictionaryGetterSetter

/-- A write without a writable transaction fails with InvalidTransaction and
leaves the dictionary as it was. -/
theorem KeyedCollectionHandle_set_closed {SV : Type} (what : ExnKind → String)
    (d : Dictionary SV) (key : String) (value : SV) (hclosed : d.writable = false) :
    (KeyedCollectionHandle what).set d key value =
      (Except.error
        { kind := ExnKind.InvalidTransaction, what := what ExnKind.InvalidTransaction }, d) := by
  simp [KeyedCollectionHandle, hclosed]

/-- A write inside a writable transaction succeeds. -/
theorem KeyedCollectionHandle_set_open {SV : Type} (what : ExnKind → String)
    (d : Dictionary SV) (key : String) (value : SV) (hopen : d.writable = true) :
    (KeyedCollectionHandle what).set d key value =
      (Except.ok (),
        { d with entries := (key, value) :: d.entries.filter (fun entry => entry.1 != key) }) := by
  simp [KeyedCollectionHandle, hopen]

/-- A lookup right after a successful write of the same key yields the
written value. -/
theorem KeyedCollectionHandle_get_set {SV : Type} (what : ExnKind → String)
    (d : Dictionary SV) (key : String) (value : SV) (hopen : d.writable = true) :
    (KeyedCollectionHandle what).get ((KeyedCollectionHandle what).set d key value).2 key =
      Except.ok value := by
  rw [KeyedCollectionHandle_set_open what d key value hopen]
  simp [KeyedCollectionHandle, List.lookup]

/-- Over the keyed collection of the spec, after a call of `set` under a
writable transaction whose `unwrap` yields `stored`, the key of the call holds
`stored`. -/
theorem DictionaryGetterSetter.get_after_set_open {Ctx HV SV : Type}
    (self : DictionaryGetterSetter (Dictionary SV) Ctx HV SV) (what : ExnKind → String)
    (args : accessor.Arguments Ctx HV) (w : World (Dictionary SV) SV) (stored : SV)
    (hcoll : self.collection = KeyedCollectionHandle what)
    (hopen : w.store.writable = true)
    (hun : self.mixed.unwrap args.context args.value = Except.ok stored) :
    self.collection.get (self.set args w).2.store (c_str args.property_name) =
      Except.ok stored := by
  rw [(self.set_of_unwrap_ok args w stored hun).2.2, hcoll]
  exact KeyedCollectionHandle_get_set what w.store _ stored hopen

/-- A lookup in a dictionary without entries fails with KeyNotFound. -/
theorem KeyedCollectionHandle_get_empty {SV : Type} (what : ExnKind → String)
    (d : Dictionary SV) (key : String) (hempty : d.entries = []) :
    (KeyedCollectionHandle what).get d key =
      Except.error { kind := ExnKind.KeyNotFound, what := what ExnKind.KeyNotFound } := by
  simp [KeyedCollectionHandle, hempty]

/-! ## The claims -/

/-- C1: whenever the lookup `collection->get(key)` that `get` makes fails with
KeyNotFound, `get` returns `Value::from_undefined(context)` for the context of
the call; no error is signalled to the host and no exception leaves `get`, and
the collection is left as it was. -/
theorem get_missing_key_returns_undefined {σ Ctx HV SV : Type}
    (self : DictionaryGetterSetter σ Ctx HV SV) (args : accessor.Arguments Ctx HV)
    (w : World σ SV) (e : Exn)
    (hget : self.collection.get w.store (c_str args.property_name) = Except.error e)
    (hkind : e.kind = ExnKind.KeyNotFound) :
    (self.get args w).1 = Completion.returned (self.Value.from_undefined args.context) ∧
      (self.get args w).2.store = w.store := by
  refine ⟨?_, self.get_store args w⟩
  rw [self.get_of_lookup_error args w e hget, if_pos hkind]

/-- A run of C1: `get("name")` on the empty dictionary of the sample host. -/
theorem get_missing_key_returns_undefined_witness :
    (sampleAccessor []).collection.get (Dictionary.empty SampleMixed false) (c_str "name") =
        Except.error { kind := ExnKind.KeyNotFound, what := "Key not found" } ∧
      ((sampleAccessor []).get (sampleArgs "name" SampleValue.undefined)
          (World.init (Dictionary.empty SampleMixed false))).1 =
        Completion.returned SampleValue.undefined :=
  ⟨rfl,
    (get_missing_key_returns_undefined (sampleAccessor [])
      (sampleArgs "name" SampleValue.undefined)
      (World.init (Dictionary.empty SampleMixed false))
      { kind := ExnKind.KeyNotFound, what := "Key not found" } rfl rfl).1⟩

/-- C2: whenever the lookup `collection->get(key)` yields the stored value
`stored` and the bridge translates it to `js_value`, `get` returns exactly
`js_value`, that is `mixed.wrap(context, collection->get(key))`, untouched. -/
theorem get_present_key_returns_wrapped {σ Ctx HV SV : Type}
    (self : DictionaryGetterSetter σ Ctx HV SV) (args : accessor.Arguments Ctx HV)
    (w : World σ SV) (stored : SV) (js_value : HV)
    (hget : self.collection.get w.store (c_str args.property_name) = Except.ok stored)
    (hwrap : self.mixed.wrap args.context stored = Except.ok js_value) :
    (self.get args w).1 = Completion.returned js_value := by
  rw [self.get_of_lookup_ok args w stored hget, hwrap]

/-- A run of C2: `get("name")` on the dictionary that stores "Ada" under
"name". -/
theorem get_present_key_returns_wrapped_witness :
    ((sampleAccessor []).get (sampleArgs "name" SampleValue.undefined)
        (World.init { entries := [("name", SampleMixed.string "Ada")], writable := false })).1 =
      Completion.returned (SampleValue.string "Ada") :=
  get_present_key_returns_wrapped (sampleAccessor [])
    (sampleArgs "name" SampleValue.undefined)
    (World.init { entries := [("name", SampleMixed.string "Ada")], writable := false })
    (SampleMixed.string "Ada") (SampleValue.string "Ada") rfl rfl

/-- C3: whenever the write `collection->set(key, mixed_value)` that `set`
makes fails with InvalidTransaction, `set` signals to the host the error of
`args.throw_error(error.what())`: it carries the message of the backend's
exception, unchanged, and the property key of the request. -/
theorem set_invalid_transaction_signals_error {σ Ctx HV SV : Type}
    (self : DictionaryGetterSetter σ Ctx HV SV) (args : accessor.Arguments Ctx HV)
    (w : World σ SV) (stored : SV) (e : Exn)
    (hun : self.mixed.unwrap args.context args.value = Except.ok stored)
    (hset : (self.collection.set w.store (c_str args.property_name) stored).1 = Except.error e)
    (hkind : e.kind = ExnKind.InvalidTransaction) :
    (self.set args w).1 =
      Completion.host_error { message := e.what, key := args.property_name } := by
  rw [(self.set_of_unwrap_ok args w stored hun).1, hset]
  simp only [if_pos hkind, accessor.Arguments.throw_error]

/-- A run of C3: `set("name", "Ada")` on a dictionary without a writable
transaction. -/
theorem set_invalid_transaction_signals_error_witness :
    ((sampleAccessor []).set (sampleArgs "name" (SampleValue.string "Ada"))
        (World.init (Dictionary.empty SampleMixed false))).1 =
      Completion.host_error
        { message := "Cannot modify managed objects outside of a write transaction.",
          key := "name" } :=
  set_invalid_transaction_signals_error (sampleAccessor [])
    (sampleArgs "name" (SampleValue.string "Ada"))
    (World.init (Dictionary.empty SampleMixed false)) (SampleMixed.string "Ada")
    { kind := ExnKind.InvalidTransaction,
      what := "Cannot modify managed objects outside of a write transaction." }
    rfl rfl rfl

/-- C4: over the keyed collection of the spec, a call of `set` while no
writable transaction is active leaves the collection state as it was, so the
stored value of every key (that of the request included) is the one before
the call, and the call reaches the collection at most once (no retry). -/
theorem set_without_transaction_keeps_state {Ctx HV SV : Type}
    (self : DictionaryGetterSetter (Dictionary SV) Ctx HV SV) (what : ExnKind → String)
    (args : accessor.Arguments Ctx HV) (w : World (Dictionary SV) SV)
    (hcoll : self.collection = KeyedCollectionHandle what)
    (hclosed : w.store.writable = false) :
    (self.set args w).2.store = w.store ∧
      (∀ key : String,
        self.collection.get (self.set args w).2.store key = self.collection.get w.store key) ∧
      (self.set args w).2.calls.length ≤ w.calls.length + 1 := by
  have hstore : (self.set args w).2.store = w.store := by
    cases hun : self.mixed.unwrap args.context args.value with
    | error e => exact (self.set_of_unwrap_error args w e hun).2.2
    | ok stored =>
      rw [(self.set_of_unwrap_ok args w stored hun).2.2, hcoll,
        KeyedCollectionHandle_set_closed what w.store _ stored hclosed]
  refine ⟨hstore, fun key => by rw [hstore], ?_⟩
  cases hun : self.mixed.unwrap args.context args.value with
  | error e => rw [(self.set_of_unwrap_error args w e hun).2.1]; exact Nat.le_succ _
  | ok stored => rw [(self.set_of_unwrap_ok args w stored hun).2.1]; simp

/-- A run of C4: with the transaction closed, `set("name", "Grace")` leaves
"Ada" stored under "name". -/
theorem set_without_transaction_keeps_state_witness :
    (sampleAccessor []).collection.get
        ((sampleAccessor []).set (sampleArgs "name" (SampleValue.string "Grace"))
          (World.init { entries := [("name", SampleMixed.string "Ada")],
                        writable := false })).2.store "name" =
      Except.ok (SampleMixed.string "Ada") :=
  ((set_without_transaction_keeps_state (sampleAccessor []) sampleWhat
    (sampleArgs "name" (SampleValue.string "Grace"))
    (World.init { entries := [("name", SampleMixed.string "Ada")], writable := false })
    rfl rfl).2.1 "name").trans rfl

/-- C5: over the keyed collection of the spec, when a writable transaction is
active and `unwrap` yields `stored`, `set` returns normally (no error is
signalled, no exception leaves it), it reaches the collection exactly once,
with `collection->set(key, stored)` for the `key` of the source
(`args.property_name.c_str()`), and the collection state after the call is the
one that write yields, in which `key` holds `stored`. -/
theorem set_in_transaction_writes_once {Ctx HV SV : Type}
    (self : DictionaryGetterSetter (Dictionary SV) Ctx HV SV) (what : ExnKind → String)
    (args : accessor.Arguments Ctx HV) (w : World (Dictionary SV) SV) (stored : SV)
    (hcoll : self.collection = KeyedCollectionHandle what)
    (hopen : w.store.writable = true)
    (hun : self.mixed.unwrap args.context args.value = Except.ok stored) :
    (self.set args w).1 = Completion.returned () ∧
      (self.set args w).2.calls = w.calls ++ [Call.set (c_str args.property_name) stored] ∧
      (self.set args w).2.store =
        (self.collection.set w.store (c_str args.property_name) stored).2 ∧
      self.collection.get (self.set args w).2.store (c_str args.property_name) =
        Except.ok stored := by
  obtain ⟨hdone, hcalls, hstore⟩ := self.set_of_unwrap_ok args w stored hun
  refine ⟨?_, hcalls, hstore, self.get_after_set_open what args w stored hcoll hopen hun⟩
  rw [hdone, hcoll, KeyedCollectionHandle_set_open what w.store _ stored hopen]

/-- A run of C5: `set("name", "Ada")` under an open transaction on the empty
dictionary. -/
theorem set_in_transaction_writes_once_witness :
    ((sampleAccessor []).set (sampleArgs "name" (SampleValue.string "Ada"))
        (World.init (Dictionary.empty SampleMixed true))).1 = Completion.returned () ∧
      ((sampleAccessor []).set (sampleArgs "name" (SampleValue.string "Ada"))
        (World.init (Dictionary.empty SampleMixed true))).2.calls =
        [Call.set "name" (SampleMixed.string "Ada")] :=
  ⟨(set_in_transaction_writes_once (sampleAccessor []) sampleWhat
      (sampleArgs "name" (SampleValue.string "Ada"))
      (World.init (Dictionary.empty SampleMixed true)) (SampleMixed.string "Ada")
      rfl rfl rfl).1,
    by decide⟩

/-- C6: over the keyed collection of the spec, if `unwrap` succeeds on `v`
and `wrap` of the result is `v` again, then from any state with a writable
transaction active `set(k, v)` followed by `get(k)` returns `v`; and `get(k)`
on a collection without entries returns the undefined value. -/
theorem set_then_get_round_trip {Ctx HV SV : Type}
    (self : DictionaryGetterSetter (Dictionary SV) Ctx HV SV) (what : ExnKind → String)
    (context : Ctx) (k : String) (v other : HV) (stored : SV)
    (w : World (Dictionary SV) SV)
    (hcoll : self.collection = KeyedCollectionHandle what)
    (hopen : w.store.writable = true)
    (hun : self.mixed.unwrap context v = Except.ok stored)
    (hwrap : self.mixed.wrap context stored = Except.ok v) :
    (self.get { context := context, property_name := k, value := other }
        (self.set { context := context, property_name := k, value := v } w).2).1 =
        Completion.returned v ∧
      ∀ w0 : World (Dictionary SV) SV, w0.store.entries = [] →
        (self.get { context := context, property_name := k, value := other } w0).1 =
          Completion.returned (self.Value.from_undefined context) := by
  constructor
  · have hset := self.get_after_set_open what
      { context := context, property_name := k, value := v } w stored hcoll hopen hun
    rw [self.get_of_lookup_ok { context := context, property_name := k, value := other }
      _ stored hset, hwrap]
  · intro w0 hempty
    have hget := KeyedCollectionHandle_get_empty what w0.store (c_str k) hempty
    rw [← hcoll] at hget
    rw [self.get_of_lookup_error { context := context, property_name := k, value := other }
      w0 _ hget, if_pos rfl]

/-- The scenario of the spec for C6: on the empty dictionary `get("name")` is
the undefined value; after `set("name", "Ada")` under an open transaction
`get("name")` is "Ada". -/
theorem set_then_get_round_trip_witness :
    ((sampleAccessor []).get (sampleArgs "name" SampleValue.undefined)
        ((sampleAccessor []).set (sampleArgs "name" (SampleValue.string "Ada"))
          (World.init (Dictionary.empty SampleMixed true))).2).1 =
        Completion.returned (SampleValue.string "Ada") ∧
      ((sampleAccessor []).get (sampleArgs "name" SampleValue.undefined)
        (World.init (Dictionary.empty SampleMixed true))).1 =
        Completion.returned SampleValue.undefined :=
  ⟨(set_then_get_round_trip (sampleAccessor []) sampleWhat () "name"
      (SampleValue.string "Ada") SampleValue.undefined (SampleMixed.string "Ada")
      (World.init (Dictionary.empty SampleMixed true)) rfl rfl rfl rfl).1,
    (set_then_get_round_trip (sampleAccessor []) sampleWhat () "name"
      (SampleValue.string "Ada") SampleValue.undefined (SampleMixed.string "Ada")
      (World.init (Dictionary.empty SampleMixed true)) rfl rfl rfl rfl).2
      (World.init (Dictionary.empty SampleMixed true)) rfl⟩

/-- C7: whenever `unwrap` fails with UnsupportedValueType, that very exception
leaves `set`, no call reaches the collection, and the collection state is the
one before the call, whatever the collection is. -/
theorem set_unsupported_value_no_write {σ Ctx HV SV : Type}
    (self : DictionaryGetterSetter σ Ctx HV SV) (args : accessor.Arguments Ctx HV)
    (w : World σ SV) (e : Exn)
    (hun : self.mixed.unwrap args.context args.value = Except.error e)
    (hkind : e.kind = ExnKind.UnsupportedValueType) :
    (self.set args w).1 = Completion.escaped e ∧
      (self.set args w).2.calls = w.calls ∧ (self.set args w).2.store = w.store := by
  obtain ⟨hdone, hcalls, hstore⟩ := self.set_of_unwrap_error args w e hun
  refine ⟨?_, hcalls, hstore⟩
  rw [hdone, if_neg]
  rw [hkind]
  decide

/-- A run of C7: `set("name", symbol)` under an open transaction writes
nothing. -/
theorem set_unsupported_value_no_write_witness :
    ((sampleAccessor []).set (sampleArgs "name" (SampleValue.symbol "tag"))
        (World.init (Dictionary.empty SampleMixed true))).1 =
        Completion.escaped
          { kind := ExnKind.UnsupportedValueType, what := "Unsupported value" } ∧
      ((sampleAccessor []).set (sampleArgs "name" (SampleValue.symbol "tag"))
        (World.init (Dictionary.empty SampleMixed true))).2.calls = [] :=
  ⟨(set_unsupported_value_no_write (sampleAccessor [])
      (sampleArgs "name" (SampleValue.symbol "tag"))
      (World.init (Dictionary.empty SampleMixed true))
      { kind := ExnKind.UnsupportedValueType, what := "Unsupported value" } rfl rfl).1,
    (set_unsupported_value_no_write (sampleAccessor [])
      (sampleArgs "name" (SampleValue.symbol "tag"))
      (World.init (Dictionary.empty SampleMixed true))
      { kind := ExnKind.UnsupportedValueType, what := "Unsupported value" } rfl rfl).2.1⟩

/-- C8, as the code has it, each half on its own.  Whenever the lookup
`collection->get(key)` fails with an exception other than KeyNotFound, that very
exception leaves `get`, with its kind and message and nothing added.  Whenever
the write `collection->set(key, mixed_value)` fails with an exception other
than InvalidTransaction, that very exception leaves `set`, with its kind and
message and nothing added. -/
theorem other_failure_escapes_unchanged {σ Ctx HV SV : Type}
    (self : DictionaryGetterSetter σ Ctx HV SV) (args : accessor.Arguments Ctx HV)
    (w : World σ SV) :
    (∀ e : Exn,
        self.collection.get w.store (c_str args.property_name) = Except.error e →
        e.kind ≠ ExnKind.KeyNotFound →
        (self.get args w).1 = Completion.escaped e) ∧
      (∀ (stored : SV) (e : Exn),
        self.mixed.unwrap args.context args.value = Except.ok stored →
        (self.collection.set w.store (c_str args.property_name) stored).1 = Except.error e →
        e.kind ≠ ExnKind.InvalidTransaction →
        (self.set args w).1 = Completion.escaped e) := by
  constructor
  · intro e hget hkind
    rw [self.get_of_lookup_error args w e hget, if_neg hkind]
  · intro stored e hun hset hkind
    rw [(self.set_of_unwrap_ok args w stored hun).1, hset]
    simp only [if_neg hkind]

/-- Two runs of C8 as the code has it.  Over a collection whose reads fail
with `sampleFailure` while its writes succeed, `get("name")` lets that
exception out; over a collection whose writes fail with `sampleFailure` while
its reads succeed, `set("name", "Ada")` lets that exception out. -/
theorem other_failure_escapes_unchanged_witness :
    ((readFailingAccessor sampleFailure).get (sampleArgs "name" SampleValue.undefined)
        (World.init ())).1 = Completion.escaped sampleFailure ∧
      ((readFailingAccessor sampleFailure).set (sampleArgs "name" (SampleValue.string "Ada"))
        (World.init ())).1 = Completion.returned () ∧
      ((writeFailingAccessor sampleFailure (SampleMixed.int 1)).set
        (sampleArgs "name" (SampleValue.string "Ada")) (World.init ())).1 =
        Completion.escaped sampleFailure ∧
      ((writeFailingAccessor sampleFailure (SampleMixed.int 1)).get
        (sampleArgs "name" SampleValue.undefined) (World.init ())).1 =
        Completion.returned (SampleValue.number 1) :=
  ⟨(other_failure_escapes_unchanged (readFailingAccessor sampleFailure)
      (sampleArgs "name" SampleValue.undefined) (World.init ())).1
      sampleFailure rfl (by decide),
    by decide,
    (other_failure_escapes_unchanged (writeFailingAccessor sampleFailure (SampleMixed.int 1))
      (sampleArgs "name" (SampleValue.string "Ada")) (World.init ())).2
      (SampleMixed.string "Ada") sampleFailure rfl rfl (by decide),
    by decide⟩

/-- C8, as the spec states it, fails: when the backend fails with
`sampleFailure`, what leaves `get` and `set` is that exception, not an error
value built by the accessor, and it is the same for the property "name" and
for the property "other", so it is not tagged with the property key. -/
theorem other_failure_not_tagged_with_key :
    ((failingAccessor sampleFailure).get (sampleArgs "name" SampleValue.undefined)
        (World.init ())).1 = Completion.escaped sampleFailure ∧
      ((failingAccessor sampleFailure).get (sampleArgs "other" SampleValue.undefined)
        (World.init ())).1 = Completion.escaped sampleFailure ∧
      ((failingAccessor sampleFailure).set (sampleArgs "name" (SampleValue.string "Ada"))
        (World.init ())).1 = Completion.escaped sampleFailure ∧
      ((failingAccessor sampleFailure).set (sampleArgs "other" (SampleValue.string "Ada"))
        (World.init ())).1 = Completion.escaped sampleFailure ∧
      ((failingAccessor sampleFailure).get (sampleArgs "name" SampleValue.undefined)
        (World.init ())).1 ≠
        Completion.host_error { message := "disk failure", key := "name" } := by
  decide

/-- C9 on the property name "a", NUL, "b": the key `get` and `set` pass to the
collection is "a", not the property name.  On the dictionary that stores "Ada"
under "a" and nothing else, `get` of that property returns "Ada", and `set` of
that property to "Grace" writes under "a". -/
theorem embedded_nul_key_is_cut :
    c_str "a\x00b" = "a" ∧
      ((sampleAccessor []).get (sampleArgs "a\x00b" SampleValue.undefined)
        (World.init { entries := [("a", SampleMixed.string "Ada")], writable := true })).2.calls =
        [Call.get "a"] ∧
      ((sampleAccessor []).get (sampleArgs "a\x00b" SampleValue.undefined)
        (World.init { entries := [("a", SampleMixed.string "Ada")], writable := true })).1 =
        Completion.returned (SampleValue.string "Ada") ∧
      ((sampleAccessor []).set (sampleArgs "a\x00b" (SampleValue.string "Grace"))
        (World.init { entries := [("a", SampleMixed.string "Ada")], writable := true })).2.calls =
        [Call.set "a" (SampleMixed.string "Grace")] ∧
      ((sampleAccessor []).set (sampleArgs "a\x00b" (SampleValue.string "Grace"))
        (World.init { entries := [("a", SampleMixed.string "Ada")],
                      writable := true })).2.store.entries =
        [("a", SampleMixed.string "Grace")] := by
  decide

/-- C10: the `catch` clause of `get` covers the bridge call too.  Whenever the
lookup yields a stored value and `wrap` of that value throws KeyNotFound, `get`
returns `Value::from_undefined(context)`; no exception leaves it. -/
theorem get_wrap_key_not_found_returns_undefined {σ Ctx HV SV : Type}
    (self : DictionaryGetterSetter σ Ctx HV SV) (args : accessor.Arguments Ctx HV)
    (w : World σ SV) (stored : SV) (e : Exn)
    (hget : self.collection.get w.store (c_str args.property_name) = Except.ok stored)
    (hwrap : self.mixed.wrap args.context stored = Except.error e)
    (hkind : e.kind = ExnKind.KeyNotFound) :
    (self.get args w).1 = Completion.returned (self.Value.from_undefined args.context) := by
  rw [self.get_of_lookup_ok args w stored hget, hwrap]
  simp only [if_pos hkind]

/-- A run of C10: the key "friend" is present and holds a link to a deleted
object; `get("friend")` returns the undefined value. -/
theorem get_wrap_key_not_found_returns_undefined_witness :
    (sampleAccessor []).collection.get
        { entries := [("friend", SampleMixed.link 7)], writable := false } "friend" =
        Except.ok (SampleMixed.link 7) ∧
      ((sampleAccessor []).get (sampleArgs "friend" SampleValue.undefined)
        (World.init { entries := [("friend", SampleMixed.link 7)], writable := false })).1 =
        Completion.returned SampleValue.undefined :=
  ⟨rfl,
    get_wrap_key_not_found_returns_undefined (sampleAccessor [])
      (sampleArgs "friend" SampleValue.undefined)
      (World.init { entries := [("friend", SampleMixed.link 7)], writable := false })
      (SampleMixed.link 7) { kind := ExnKind.KeyNotFound, what := "No such object" }
      rfl rfl rfl⟩

end js
end realm
